import Mathlib

/-!
Verification of the excel-mcp server (`src/server.py`).

The server exposes four tools over a single backing spreadsheet/CSV file:
`query`, `update_item`, `delete_item`, `list_columns`.  Each tool call loads
the whole file into a pandas DataFrame, operates on it, possibly writes the
file back, and returns a text result.

Shallow embedding:
* `Value` models a cell value (the claims only need integers and strings).
* `DataFrame` models a pandas DataFrame: an ordered list of column names and
  an ordered list of rows, each row carrying its pandas index label
  (`read_excel`/`read_csv` produce a `RangeIndex 0..n-1`, captured by
  `Loaded`).
* A tool handler is a pure function from the freshly loaded DataFrame to a
  `ToolResult`: the returned `TextContent` string plus `written`, which is
  `some df` exactly when `write_file(df, FILE_PATH)` was reached (so
  `written = none` means the on-disk file is unchanged by the call).
* The delegated query evaluator (`df.query`) is a parameter
  `ev : DataFrame → String → Except String DataFrame`; `Except.error e`
  models `df.query` raising an exception whose `str` is `e`, which the
  `except` block of `handle_call_tool` converts into an error text.
* The filesystem seen by `validate_file` is a parameter
  `ex : String → Bool` (`os.path.exists`).
-/

namespace ExcelMcp

/-- A cell value; the claims only exercise integer and string cells. -/
inductive Value where
  | int (i : Int)
  | str (s : String)
deriving DecidableEq, Repr

/-- A pandas DataFrame: ordered column names and ordered rows, each row a
pair of its index label and its list of cells (aligned with `columns`). -/
structure DataFrame where
  columns : List String
  rows : List (Value × List Value)
deriving DecidableEq, Repr

/-- `df.index`: the list of row labels. -/
def DataFrame.index (df : DataFrame) : List Value :=
  df.rows.map Prod.fst

/-- `df.empty`: true when either axis has length zero. -/
def DataFrame.empty (df : DataFrame) : Bool :=
  df.rows.isEmpty || df.columns.isEmpty

/-- `df[c]` at one row: the cell in the column named `c` (first occurrence),
`none` when the column is missing. -/
def rowCell (cols : List String) (row : List Value) (c : String) : Option Value :=
  ((cols.zip row).find? (fun p => decide (p.1 = c))).map Prod.snd

/-- One pandas cell assignment `df.loc[index, c] = v` restricted to a single
row: set every position whose column name is `c`. -/
def setRowCell (cols : List String) (c : String) (v : Value) (row : List Value) : List Value :=
  (cols.zip row).map (fun p => if p.1 = c then v else p.2)

/-- `df.loc[index, c] = v`: update the cell in column `c` of every row whose
label is `index`. -/
def setCell (df : DataFrame) (index : Value) (c : String) (v : Value) : DataFrame :=
  { df with rows := df.rows.map (fun r => if r.1 = index then (r.1, setRowCell df.columns c v r.2) else r) }

/-- `df.drop(label)`: remove every row whose index label is `label`. -/
def DataFrame.drop (df : DataFrame) (label : Value) : DataFrame :=
  { df with rows := df.rows.filter (fun r => decide (r.1 ≠ label)) }

/-- Python `str` of a tool argument as it appears inside an f-string. -/
def pyArg : Value → String
  | .int i => toString i
  | .str s => s

/-- The single-quote character, used by Python `str` renderings of lists. -/
def sq : String := String.singleton (Char.ofNat 39)

/-- Python `str` of a cell value inside a list/dict rendering. -/
def pyStr : Value → String
  | .int i => toString i
  | .str s => sq ++ s ++ sq

/-- Python `str` of a list of strings, e.g. the `list_columns` output. -/
def pyStrList (xs : List String) : String :=
  "[" ++ String.intercalate ", " (xs.map (fun s => sq ++ s ++ sq)) ++ "]"

/-- Python `str` of one record of `df.to_dict('records')`. -/
def pyRecord (cols : List String) (row : List Value) : String :=
  "\x7b" ++ String.intercalate ", " ((cols.zip row).map (fun p => sq ++ p.1 ++ sq ++ ": " ++ pyStr p.2)) ++ "\x7d"

/-- Python `str` of `df.to_dict('records')`. -/
def pyRecords (df : DataFrame) : String :=
  "[" ++ String.intercalate ", " (df.rows.map (fun r => pyRecord df.columns r.2)) ++ "]"

/-- The text of `f"Error: Index {index} not found"`. -/
def errIndex (v : Value) : String := "Error: " ++ ("Index " ++ pyArg v ++ " not found")

/-- The text of `f"Error: Column {column} not found"`. -/
def errColumn (c : String) : String := "Error: " ++ ("Column " ++ c ++ " not found")

/-- The result of one tool call: the returned text, and the DataFrame passed
to `write_file` when a write was reached (`none`: the file is untouched). -/
structure ToolResult where
  text : String
  written : Option DataFrame
deriving DecidableEq, Repr

/-- A failure result: every error path of the dispatcher returns a text
beginning with `"Error: "`, and no success text does. -/
def ToolResult.isError (r : ToolResult) : Prop :=
  ∃ s, r.text = "Error: " ++ s

/-- The per-column loop of `update_item`: for each `(column, value)` pair,
fail if the column is absent, otherwise assign the cell; after the loop the
DataFrame is written and success is returned. -/
def update_loop (df : DataFrame) (index : Value) : List (String × Value) → ToolResult
  | [] => ⟨"Item updated successfully", some df⟩
  | (c, v) :: rest =>
    if c ∈ df.columns then update_loop (setCell df index c v) index rest
    else ⟨errColumn c, none⟩

/-- The `update_item` branch of `handle_call_tool`: reject an index absent
from `df.index`, then run the column loop. -/
def update_item (df : DataFrame) (index : Value) (data : List (String × Value)) : ToolResult :=
  if index ∈ df.index then update_loop df index data
  else ⟨errIndex index, none⟩

/-- The `delete_item` branch of `handle_call_tool`: empty-table check, then
either value-based deletion on a custom `id_column` or positional deletion
by index label. -/
def delete_item (df : DataFrame) (index : Value) (id_column : String) : ToolResult :=
  if df.empty then ⟨"Error: " ++ "Empty file", none⟩
  else if id_column ≠ "id" then
    if id_column ∉ df.columns then ⟨errColumn id_column, none⟩
    else if !(df.rows.any (fun r => decide (rowCell df.columns r.2 id_column = some index))) then
      ⟨errIndex index, none⟩
    else
      ⟨"Item deleted successfully",
        some { df with rows := df.rows.filter (fun r => decide (rowCell df.columns r.2 id_column ≠ some index)) }⟩
  else
    if index ∉ df.index then ⟨errIndex index, none⟩
    else ⟨"Item deleted successfully", some (df.drop index)⟩

/-- A tool invocation as dispatched by `handle_call_tool`; `delete_item`
carries its optional `id_column` argument (`arguments.get("id_column", "id")`). -/
inductive ToolCall where
  | query (q : String)
  | update_item (index : Value) (data : List (String × Value))
  | delete_item (index : Value) (id_column : Option String)
  | list_columns
deriving DecidableEq, Repr

/-- The dispatcher `handle_call_tool`, given the loaded DataFrame (every
branch begins with `read_file(FILE_PATH)`) and the delegated query
evaluator. -/
def handle_call_tool (ev : DataFrame → String → Except String DataFrame)
    (df : DataFrame) : ToolCall → ToolResult
  | .query q =>
    match ev df q with
    | .ok res => ⟨pyRecords res, none⟩
    | .error e => ⟨"Error: " ++ e, none⟩
  | .update_item index data => update_item df index data
  | .delete_item index idc => delete_item df index (idc.getD "id")
  | .list_columns => ⟨pyStrList df.columns, none⟩

/-- ASCII lowercasing of one character, as Python `str.lower` acts on the
extension alphabet. -/
def lowerChar (ch : Char) : Char :=
  if decide (65 ≤ ch.toNat ∧ ch.toNat ≤ 90) then Char.ofNat (ch.toNat + 32) else ch

/-- The extension extraction `file_path.split('.')[-1].lower()`: the suffix
after the last dot (the whole string when no dot occurs), lowercased. -/
def fileExt (path : String) : String :=
  String.mk ((((path.toList).reverse.takeWhile (fun ch => decide (ch ≠ '.'))).reverse).map lowerChar)

/-- `validate_file`: `None` for a missing file or an extension outside
`{xls, xlsx, csv}`, otherwise the extension. -/
def validate_file (ex : String → Bool) (path : String) : Option String :=
  if !(ex path) then none
  else
    let ext := fileExt path
    if ext ∈ (["xls", "xlsx", "csv"] : List String) then some ext else none

/-- The startup outcome of `main`. -/
inductive Startup where
  | exitFail
  | serve
deriving DecidableEq, Repr

/-- The startup gate of `main`: `if not validate_file(FILE_PATH): sys.exit(1)`
(Python truthiness: `None` and the empty string are falsy). -/
def main_startup (ex : String → Bool) (path : String) : Startup :=
  match validate_file ex path with
  | none => .exitFail
  | some s => if s = "" then .exitFail else .serve

/-- A freshly loaded table: `read_excel`/`read_csv` produce the RangeIndex
`0..n-1`, and every row has one cell per column. -/
def Loaded (df : DataFrame) : Prop :=
  df.index = (List.range df.rows.length).map (fun i => Value.int (Int.ofNat i)) ∧
  ∀ r ∈ df.rows, r.2.length = df.columns.length

/-- The sample table of the spec scenarios:
`{id: [1,2,3], name: [John,Jane,Bob], age: [25,30,35]}`. -/
def sampleDF : DataFrame :=
  { columns := ["id", "name", "age"],
    rows := [(.int 0, [.int 1, .str "John", .int 25]),
             (.int 1, [.int 2, .str "Jane", .int 30]),
             (.int 2, [.int 3, .str "Bob", .int 35])] }

/-- The custom-id sample of the spec scenario: `custom_id` column `[A1,A2,A3]`. -/
def customDF : DataFrame :=
  { columns := ["custom_id", "name"],
    rows := [(.int 0, [.str "A1", .str "John"]),
             (.int 1, [.str "A2", .str "Jane"]),
             (.int 2, [.str "A3", .str "Bob"])] }

/-- A one-point filesystem for concrete `validate_file` runs. -/
def wEx : String → Bool := fun p => decide (p = "data.xlsx")

/-- An evaluator that always fails, modelling `df.query` raising. -/
def failEv : DataFrame → String → Except String DataFrame :=
  fun _ _ => .error "undefined variable"

/-! ### Helper lemmas -/

theorem setCell_columns (df : DataFrame) (index : Value) (c : String) (v : Value) :
    (setCell df index c v).columns = df.columns := rfl

theorem setRowCell_length (cols : List String) (c : String) (v : Value) (row : List Value)
    (hlen : row.length = cols.length) :
    (setRowCell cols c v row).length = cols.length := by
  simp [setRowCell, List.length_zip, hlen]

theorem rowCell_setRowCell_ne (cols : List String) (c c' : String) (v : Value)
    (row : List Value) (hne : c' ≠ c) :
    rowCell cols (setRowCell cols c v row) c' = rowCell cols row c' := by
  induction cols generalizing row with
  | nil => simp [rowCell, setRowCell]
  | cons c₀ cs ih =>
    cases row with
    | nil => simp [rowCell, setRowCell]
    | cons v₀ vs =>
      by_cases h : c₀ = c'
      · subst h
        simp [rowCell, setRowCell, hne]
      · simpa [rowCell, setRowCell, h] using ih vs

theorem rowCell_setRowCell_same (cols : List String) (c : String) (v : Value)
    (row : List Value) (hc : c ∈ cols) (hlen : row.length = cols.length) :
    rowCell cols (setRowCell cols c v row) c = some v := by
  induction cols generalizing row with
  | nil => simp at hc
  | cons c₀ cs ih =>
    cases row with
    | nil => simp at hlen
    | cons v₀ vs =>
      by_cases h : c₀ = c
      · simp [rowCell, setRowCell, h]
      · have hc' : c ∈ cs := by
          rcases List.mem_cons.mp hc with h1 | h1
          · exact absurd h1.symm h
          · exact h1
        have hlen' : vs.length = cs.length := by simpa using hlen
        simpa [rowCell, setRowCell, h] using ih vs hc' hlen'

theorem rowCell_foldl_not_mem (data : List (String × Value)) (cols : List String)
    (row : List Value) (c : String) (hc : c ∉ data.map Prod.fst) :
    rowCell cols (data.foldl (fun acc p => setRowCell cols p.1 p.2 acc) row) c =
      rowCell cols row c := by
  induction data generalizing row with
  | nil => rfl
  | cons p rest ih =>
    have h1 : c ≠ p.1 := by
      intro h
      exact hc (by simp [h])
    have h2 : c ∉ rest.map Prod.fst := by
      intro h
      exact hc (by simp [h])
    rw [List.foldl_cons, ih (setRowCell cols p.1 p.2 row) h2,
      rowCell_setRowCell_ne cols p.1 c p.2 row h1]

theorem lookup_eq_none_iff (data : List (String × Value)) (c : String) :
    data.lookup c = none ↔ c ∉ data.map Prod.fst := by
  induction data with
  | nil => simp
  | cons p rest ih =>
    by_cases h : c = p.1
    · simp [List.lookup, h]
    · simp [List.lookup, h, ih, beq_false_of_ne h]

theorem foldlRow_length (data : List (String × Value)) (cols : List String)
    (row : List Value) (hlen : row.length = cols.length) :
    (data.foldl (fun acc p => setRowCell cols p.1 p.2 acc) row).length = cols.length := by
  induction data generalizing row with
  | nil => exact hlen
  | cons p rest ih =>
    rw [List.foldl_cons]
    exact ih _ (setRowCell_length cols p.1 p.2 row hlen)

theorem rowCell_foldl_lookup_some (data : List (String × Value)) (cols : List String)
    (row : List Value) (hN : (data.map Prod.fst).Nodup)
    (hC : ∀ c ∈ data.map Prod.fst, c ∈ cols) (hlen : row.length = cols.length)
    (c : String) (v : Value) (hl : data.lookup c = some v) :
    rowCell cols (data.foldl (fun acc p => setRowCell cols p.1 p.2 acc) row) c = some v := by
  induction data generalizing row with
  | nil => simp [List.lookup] at hl
  | cons p rest ih =>
    by_cases h : c = p.1
    · have hv : v = p.2 := by
        subst h
        simp [List.lookup] at hl
        exact hl.symm
      have hrest : c ∉ rest.map Prod.fst := by
        subst h
        exact (List.nodup_cons.mp hN).1
      rw [List.foldl_cons, rowCell_foldl_not_mem rest cols _ c hrest, h, hv,
        rowCell_setRowCell_same cols p.1 p.2 row (hC p.1 (by simp)) hlen]
    · have hl' : rest.lookup c = some v := by
        simpa [List.lookup, beq_false_of_ne h] using hl
      rw [List.foldl_cons]
      exact ih (setRowCell cols p.1 p.2 row) (List.nodup_cons.mp hN).2
        (fun d hd => hC d (List.mem_cons_of_mem p.1 hd))
        (setRowCell_length cols p.1 p.2 row hlen) hl'

theorem foldl_setCell_columns (data : List (String × Value)) (df : DataFrame) (index : Value) :
    (data.foldl (fun d p => setCell d index p.1 p.2) df).columns = df.columns := by
  induction data generalizing df with
  | nil => rfl
  | cons p rest ih => rw [List.foldl_cons, ih]; rfl

theorem foldl_setCell_rows (data : List (String × Value)) (df : DataFrame) (index : Value) :
    (data.foldl (fun d p => setCell d index p.1 p.2) df).rows =
      df.rows.map (fun r => if r.1 = index then
        (r.1, data.foldl (fun acc p => setRowCell df.columns p.1 p.2 acc) r.2) else r) := by
  induction data generalizing df with
  | nil => simp
  | cons p rest ih =>
    rw [List.foldl_cons, ih]
    simp only [setCell, List.map_map]
    refine List.map_congr_left (fun r _ => ?_)
    by_cases h : r.1 = index
    · simp [Function.comp, h]
    · simp [Function.comp, h]

theorem update_loop_missing (data : List (String × Value)) (df : DataFrame) (index : Value)
    (h : ∃ c, c ∈ data.map Prod.fst ∧ c ∉ df.columns) :
    ∃ c, c ∈ data.map Prod.fst ∧ c ∉ df.columns ∧
      update_loop df index data = ⟨errColumn c, none⟩ := by
  induction data generalizing df with
  | nil => simp at h
  | cons p rest ih =>
    obtain ⟨c₀, v₀⟩ := p
    by_cases hp : c₀ ∈ df.columns
    · obtain ⟨c, hc, hcol⟩ := h
      have hcrest : c ∈ rest.map Prod.fst := by
        rcases List.mem_cons.mp hc with h1 | h1
        · exact absurd (by rw [h1]; exact hp) hcol
        · exact h1
      obtain ⟨c', h1, h2, h3⟩ := ih (setCell df index c₀ v₀) ⟨c, hcrest, hcol⟩
      exact ⟨c', List.mem_cons_of_mem c₀ h1, h2, by simpa [update_loop, hp] using h3⟩
    · exact ⟨c₀, List.mem_cons_self c₀ _, hp, by simp [update_loop, hp]⟩

theorem update_loop_ok (data : List (String × Value)) (df : DataFrame) (index : Value)
    (hC : ∀ c ∈ data.map Prod.fst, c ∈ df.columns) :
    update_loop df index data =
      ⟨"Item updated successfully", some (data.foldl (fun d p => setCell d index p.1 p.2) df)⟩ := by
  induction data generalizing df with
  | nil => rfl
  | cons p rest ih =>
    obtain ⟨c₀, v₀⟩ := p
    have hp : c₀ ∈ df.columns := hC c₀ (by simp)
    rw [List.foldl_cons]
    simpa [update_loop, hp] using ih (setCell df index c₀ v₀) (fun d hd => hC d (by simp [hd]))

theorem length_filter_label_ne (rows : List (Value × List Value)) (a : Value)
    (h : (rows.map Prod.fst).Nodup) (ha : a ∈ rows.map Prod.fst) :
    (rows.filter (fun r => decide (r.1 ≠ a))).length = rows.length - 1 := by
  induction rows with
  | nil => simp at ha
  | cons r rest ih =>
    have hn := List.nodup_cons.mp (h : (r.1 :: rest.map Prod.fst).Nodup)
    by_cases hr : r.1 = a
    · have hall : rest.filter (fun s => decide (s.1 ≠ a)) = rest := by
        refine List.filter_eq_self.mpr (fun s hs => ?_)
        simp only [decide_eq_true_eq]
        intro hsa
        exact hn.1 (by rw [hr, ← hsa]; exact List.mem_map_of_mem Prod.fst hs)
      rw [List.filter_cons, if_neg (by simp [hr]), hall]
      simp
    · have ha' : a ∈ rest.map Prod.fst := by
        rcases List.mem_cons.mp ha with h1 | h1
        · exact absurd h1.symm hr
        · exact h1
      have hpos : 0 < rest.length := by
        cases rest with
        | nil => simp at ha'
        | cons _ _ => simp
      have hrec := ih hn.2 ha'
      rw [List.filter_cons, if_pos (by simp [hr]), List.length_cons, hrec, List.length_cons]
      omega

theorem loaded_index_nodup (df : DataFrame) (hL : Loaded df) : df.index.Nodup := by
  rw [hL.1]
  exact (List.nodup_range _).map (fun a b hab => by
    simpa using hab)

/-! ### Claims -/

/-- C1, counterexample to the claim as stated: at the sample table, index 5
(absent from the index) and data `{bogus: "x"}`, the data mapping contains a
column name absent from the table, yet the returned failure text names the
index, not the missing column. -/
theorem update_missing_column_cex :
    (∃ c, c ∈ ([("bogus", Value.str "x")].map Prod.fst) ∧ c ∉ sampleDF.columns) ∧
    ¬ (∃ c, c ∈ ([("bogus", Value.str "x")].map Prod.fst) ∧ c ∉ sampleDF.columns ∧
        (update_item sampleDF (Value.int 5) [("bogus", Value.str "x")]).text = errColumn c) := by
  decide

/-- C1 (amended): an `update_item` call whose data mapping contains a column
name absent from the table returns a failure result and reaches no write of
the backing file; when additionally the index is present in the table's
index, the failure text names such a missing column (even when earlier
columns of the data were valid and already applied to the in-memory table). -/
theorem update_missing_column_no_write (df : DataFrame) (index : Value)
    (data : List (String × Value))
    (h : ∃ c, c ∈ data.map Prod.fst ∧ c ∉ df.columns) :
    (update_item df index data).written = none ∧
    (update_item df index data).isError ∧
    (index ∈ df.index →
      ∃ c, c ∈ data.map Prod.fst ∧ c ∉ df.columns ∧
        (update_item df index data).text = errColumn c) := by
  by_cases hidx : index ∈ df.index
  · obtain ⟨c, hc, hcol, heq⟩ := update_loop_missing data df index h
    have hu : update_item df index data = ⟨errColumn c, none⟩ := by
      rw [update_item, if_pos hidx, heq]
    exact ⟨by rw [hu], ⟨"Column " ++ c ++ " not found", by rw [hu]; rfl⟩,
      fun _ => ⟨c, hc, hcol, by rw [hu]⟩⟩
  · have hu : update_item df index data = ⟨errIndex index, none⟩ := by
      rw [update_item, if_neg hidx]
    exact ⟨by rw [hu], ⟨"Index " ++ pyArg index ++ " not found", by rw [hu]; rfl⟩,
      fun hmem => absurd hmem hidx⟩

/-- C1 witness: valid index 1, data `{name: "X", bogus: "x"}` — the earlier
valid column is applied in memory, yet the result is the column-naming
failure and no write occurs. -/
theorem update_missing_column_witness :
    (update_item sampleDF (Value.int 1)
      [("name", Value.str "X"), ("bogus", Value.str "x")]).written = none ∧
    ∃ c, c ∈ ([("name", Value.str "X"), ("bogus", Value.str "x")].map Prod.fst) ∧
      c ∉ sampleDF.columns ∧
      (update_item sampleDF (Value.int 1)
        [("name", Value.str "X"), ("bogus", Value.str "x")]).text = errColumn c :=
  ⟨(update_missing_column_no_write sampleDF (Value.int 1)
      [("name", Value.str "X"), ("bogus", Value.str "x")] ⟨"bogus", by decide, by decide⟩).1,
   (update_missing_column_no_write sampleDF (Value.int 1)
      [("name", Value.str "X"), ("bogus", Value.str "x")] ⟨"bogus", by decide, by decide⟩).2.2
      (by decide)⟩

/-- C2: on a freshly loaded table, a valid positional index, and a data
mapping all of whose column names exist, `update_item` returns the success
message and the DataFrame passed to `write_file` is the loaded table with,
at the addressed row, each named column set to its new value and every
other cell unchanged. -/
theorem update_valid_success (df : DataFrame) (index : Value)
    (data : List (String × Value)) (hL : Loaded df) (hidx : index ∈ df.index)
    (hN : (data.map Prod.fst).Nodup)
    (hC : ∀ c ∈ data.map Prod.fst, c ∈ df.columns) :
    ∃ df2, update_item df index data = ⟨"Item updated successfully", some df2⟩ ∧
      df2.columns = df.columns ∧
      List.Forall₂ (fun r r2 : Value × List Value =>
        r2.1 = r.1 ∧
        (r.1 ≠ index → r2.2 = r.2) ∧
        (r.1 = index →
          (∀ c v, data.lookup c = some v → rowCell df.columns r2.2 c = some v) ∧
          (∀ c, data.lookup c = none →
            rowCell df.columns r2.2 c = rowCell df.columns r.2 c)))
        df.rows df2.rows := by
  refine ⟨data.foldl (fun d p => setCell d index p.1 p.2) df, ?_,
    foldl_setCell_columns data df index, ?_⟩
  · rw [update_item, if_pos hidx, update_loop_ok data df index hC]
  · rw [foldl_setCell_rows data df index]
    refine List.forall₂_map_right_iff.mpr (List.forall₂_same.mpr (fun r hr => ?_))
    by_cases h : r.1 = index
    · rw [if_pos h]
      refine ⟨rfl, fun hne => absurd h hne, fun _ => ⟨?_, ?_⟩⟩
      · intro c v hl
        exact rowCell_foldl_lookup_some data df.columns r.2 hN hC (hL.2 r hr) c v hl
      · intro c hl
        exact rowCell_foldl_not_mem data df.columns r.2 c
          ((lookup_eq_none_iff data c).mp hl)
    · rw [if_neg h]
      exact ⟨rfl, fun _ => rfl, fun heq => absurd heq h⟩

/-- C2 witness: the spec scenario `update_item(1, {name: "Updated Name"})`
on the sample table succeeds. -/
theorem update_valid_success_witness :
    (update_item sampleDF (Value.int 1) [("name", Value.str "Updated Name")]).text =
      "Item updated successfully" := by
  obtain ⟨df2, heq, -, -⟩ := update_valid_success sampleDF (Value.int 1)
    [("name", Value.str "Updated Name")] ⟨by decide, by decide⟩ (by decide) (by decide) (by decide)
  rw [heq]

/-- C3: on a non-empty freshly loaded table and a positional index present
in its index, `delete_item` with the defaulted `id_column` succeeds and the
DataFrame passed to `write_file` has exactly one row fewer and no row with
that position key. -/
theorem delete_positional_success (ev : DataFrame → String → Except String DataFrame)
    (df : DataFrame) (index : Value) (hL : Loaded df) (hne : df.empty = false)
    (hidx : index ∈ df.index) :
    ∃ df2, handle_call_tool ev df (.delete_item index none) =
        ⟨"Item deleted successfully", some df2⟩ ∧
      df2.columns = df.columns ∧ df2.rows.length = df.rows.length - 1 ∧
      index ∉ df2.index := by
  refine ⟨df.drop index, ?_, rfl, ?_, ?_⟩
  · show delete_item df index "id" = _
    rw [delete_item, if_neg (by simp [hne]), if_neg (by simp),
      if_neg (by simp [hidx])]
  · exact length_filter_label_ne df.rows index (loaded_index_nodup df hL) hidx
  · intro hmem
    simp only [DataFrame.drop, DataFrame.index, List.mem_map, List.mem_filter,
      decide_eq_true_eq] at hmem
    obtain ⟨r, ⟨-, hne'⟩, hfst⟩ := hmem
    exact hne' hfst

/-- C3 witness: deleting position 1 of the sample table succeeds with one
row fewer. -/
theorem delete_positional_success_witness :
    ∃ df2, handle_call_tool failEv sampleDF (.delete_item (Value.int 1) none) =
        ⟨"Item deleted successfully", some df2⟩ ∧
      df2.columns = sampleDF.columns ∧ df2.rows.length = sampleDF.rows.length - 1 ∧
      Value.int 1 ∉ df2.index :=
  delete_positional_success failEv sampleDF (Value.int 1) ⟨by decide, by decide⟩ (by decide) (by decide)

/-- C4: when the delegated query evaluator rejects the query string, the
`query` tool returns a failure result whose text contains the evaluator's
message, and no write occurs; the embedding is a total function, so no
exception reaches the caller. -/
theorem query_error_failure (ev : DataFrame → String → Except String DataFrame)
    (df : DataFrame) (q e : String) (h : ev df q = Except.error e) :
    (handle_call_tool ev df (.query q)).written = none ∧
    ∃ s t, (handle_call_tool ev df (.query q)).text = s ++ e ++ t := by
  have hq : handle_call_tool ev df (.query q) = ⟨"Error: " ++ e, none⟩ := by
    simp [handle_call_tool, h]
  refine ⟨by rw [hq], ⟨"Error: ", "", ?_⟩⟩
  rw [hq]
  show "Error: " ++ e = "Error: " ++ e ++ ""
  rw [String.append_empty]

/-- C4 witness: an always-failing evaluator yields the wrapped message and
no write. -/
theorem query_error_failure_witness :
    (handle_call_tool failEv sampleDF (.query "age >")).written = none ∧
    ∃ s t, (handle_call_tool failEv sampleDF (.query "age >")).text =
      s ++ "undefined variable" ++ t :=
  query_error_failure failEv sampleDF "age >" "undefined variable" rfl

/-- C5: `delete_item` on a table with zero rows fails with the empty-file
message and reaches no write, for every index and id_column argument. -/
theorem delete_empty_fails (ev : DataFrame → String → Except String DataFrame)
    (df : DataFrame) (index : Value) (idc : Option String) (h : df.rows = []) :
    handle_call_tool ev df (.delete_item index idc) = ⟨"Error: Empty file", none⟩ := by
  show delete_item df index (idc.getD "id") = _
  rw [delete_item, if_pos (by simp [DataFrame.empty, h])]
  decide

/-- C5 witness: `delete_item(0)` on the empty DataFrame. -/
theorem delete_empty_fails_witness :
    handle_call_tool failEv { columns := [], rows := [] } (.delete_item (Value.int 0) none) =
      ⟨"Error: Empty file", none⟩ :=
  delete_empty_fails failEv { columns := [], rows := [] } (Value.int 0) none rfl

/-- C6: `delete_item` with a custom (non-default) id_column on a non-empty
table: an absent column fails naming the column; no matching value fails
naming the index; otherwise it succeeds and the DataFrame passed to
`write_file` is the loaded table with every row whose value in that column
equals the index argument removed. -/
theorem delete_custom_id (df : DataFrame) (index : Value) (col : String)
    (hcol : col ≠ "id") (hne : df.empty = false) :
    (col ∉ df.columns → delete_item df index col = ⟨errColumn col, none⟩) ∧
    (col ∈ df.columns → (∀ r ∈ df.rows, rowCell df.columns r.2 col ≠ some index) →
      delete_item df index col = ⟨errIndex index, none⟩) ∧
    (col ∈ df.columns → (∃ r ∈ df.rows, rowCell df.columns r.2 col = some index) →
      ∃ df2, delete_item df index col = ⟨"Item deleted successfully", some df2⟩ ∧
        df2.columns = df.columns ∧
        df2.rows = df.rows.filter (fun r => decide (rowCell df.columns r.2 col ≠ some index))) := by
  have hempty : ¬ df.empty = true := by simp [hne]
  refine ⟨fun habs => ?_, fun hc hnone => ?_, fun hc hsome => ?_⟩
  · rw [delete_item, if_neg hempty, if_pos hcol, if_pos habs]
  · have hany : (df.rows.any fun r => decide (rowCell df.columns r.2 col = some index)) = false := by
      rw [List.any_eq_false]
      intro r hr
      simpa using hnone r hr
    rw [delete_item, if_neg hempty, if_pos hcol, if_neg (fun hn => hn hc),
      if_pos (by simp [hany])]
  · have hany : (df.rows.any fun r => decide (rowCell df.columns r.2 col = some index)) = true := by
      rw [List.any_eq_true]
      obtain ⟨r, hr, hcell⟩ := hsome
      exact ⟨r, hr, by simpa using hcell⟩
    refine ⟨⟨df.columns,
      df.rows.filter (fun r => decide (rowCell df.columns r.2 col ≠ some index))⟩,
      ?_, rfl, rfl⟩
    rw [delete_item, if_neg hempty, if_pos hcol, if_neg (fun hn => hn hc),
      if_neg (by simp [hany])]

/-- C6 witness: the spec scenario `delete_item("A2", id_column="custom_id")`
on the custom-id table succeeds and filters the matching row out. -/
theorem delete_custom_id_witness :
    ∃ df2, delete_item customDF (Value.str "A2") "custom_id" =
        ⟨"Item deleted successfully", some df2⟩ ∧
      df2.columns = customDF.columns ∧
      df2.rows = customDF.rows.filter
        (fun r => decide (rowCell customDF.columns r.2 "custom_id" ≠ some (Value.str "A2"))) :=
  (delete_custom_id customDF (Value.str "A2") "custom_id" (by decide) (by decide)).2.2
    (by decide) (by decide)

/-- C7: `list_columns` returns the rendering of the table's column names as
a list, in the table's column order, and reaches no write. -/
theorem list_columns_order (ev : DataFrame → String → Except String DataFrame)
    (df : DataFrame) :
    handle_call_tool ev df .list_columns = ⟨pyStrList df.columns, none⟩ := rfl

/-- C8: `validate_file` returns `None` exactly for a missing file or an
extension (lowercased text after the last dot) outside `{xls, xlsx, csv}`,
otherwise it returns that extension; and startup exits with a failure
status exactly when validation returned `None`. -/
theorem validate_file_startup (ex : String → Bool) (path : String) :
    (validate_file ex path = none ↔
      (ex path = false ∨ fileExt path ∉ (["xls", "xlsx", "csv"] : List String))) ∧
    (∀ s, validate_file ex path = some s → s = fileExt path) ∧
    (main_startup ex path = Startup.exitFail ↔ validate_file ex path = none) := by
  by_cases hex : ex path
  · by_cases hft : fileExt path ∈ (["xls", "xlsx", "csv"] : List String)
    · have hv : validate_file ex path = some (fileExt path) := by
        simp [validate_file, hex, hft]
      have hnil : fileExt path ≠ "" := by
        simp only [List.mem_cons, List.not_mem_nil, or_false] at hft
        rcases hft with h | h | h <;> rw [h] <;> decide
      have hm : main_startup ex path = Startup.serve := by
        simp [main_startup, hv, hnil]
      refine ⟨by simp [hv, hex, hft], fun s hs => ?_, by simp [hm, hv]⟩
      rw [hv] at hs
      exact (Option.some_inj.mp hs).symm
    · have hv : validate_file ex path = none := by
        simp [validate_file, hex, hft]
      have hm : main_startup ex path = Startup.exitFail := by
        simp [main_startup, hv]
      exact ⟨by simp [hv, hft], fun s hs => by simp [hv] at hs, by simp [hm, hv]⟩
  · have hex' : ex path = false := by simpa using hex
    have hv : validate_file ex path = none := by
      simp [validate_file, hex']
    have hm : main_startup ex path = Startup.exitFail := by
      simp [main_startup, hv]
    exact ⟨by simp [hv, hex'], fun s hs => by simp [hv] at hs, by simp [hm, hv]⟩

/-- C8 witness: on a filesystem holding only `data.xlsx`, validation accepts
`data.xlsx` with format `xlsx` and rejects `notes.txt`. -/
theorem validate_file_startup_witness :
    ("xlsx" = fileExt "data.xlsx") ∧ validate_file wEx "notes.txt" = none :=
  ⟨(validate_file_startup wEx "data.xlsx").2.1 "xlsx" (by decide),
   (validate_file_startup wEx "notes.txt").1.mpr (Or.inl (by decide))⟩

/-- C9: whenever the `id_column` argument is the string `"id"` — omitted
(defaulted) or supplied explicitly — `delete_item` uses positional-index
semantics: the outcome depends only on membership of the index argument in
`df.index`, never on the values of a column named `"id"`. -/
theorem delete_id_positional (ev : DataFrame → String → Except String DataFrame)
    (df : DataFrame) (index : Value) (o : Option String)
    (h : o = none ∨ o = some "id") :
    handle_call_tool ev df (.delete_item index o) =
      (if df.empty then ⟨"Error: Empty file", none⟩
       else if index ∈ df.index then
         ⟨"Item deleted successfully", some (df.drop index)⟩
       else ⟨errIndex index, none⟩) := by
  have hid : o.getD "id" = "id" := by rcases h with h | h <;> simp [h]
  show delete_item df index (o.getD "id") = _
  rw [hid, delete_item]
  by_cases he : df.empty
  · rw [if_pos he, if_pos he]
    decide
  · rw [if_neg he, if_neg he, if_neg (by simp)]
    by_cases hm : index ∈ df.index
    · rw [if_neg (by simpa using hm), if_pos hm]
    · rw [if_pos hm, if_neg hm]

/-- C9 witness: the sample table has a column literally named `id` holding
the value 3, yet `delete_item(3, id_column="id")` fails — 3 is not a
positional label — showing value-based lookup on `"id"` cannot happen. -/
theorem delete_id_positional_witness :
    handle_call_tool failEv sampleDF (.delete_item (Value.int 3) (some "id")) =
      ⟨errIndex (Value.int 3), none⟩ := by
  rw [delete_id_positional failEv sampleDF (Value.int 3) (some "id") (Or.inr rfl)]
  decide

/-- C10: `query` and `list_columns` never reach a write of the backing
file; any call that reaches a write is an `update_item` or `delete_item`
call. -/
theorem writes_only_mutations (ev : DataFrame → String → Except String DataFrame)
    (df : DataFrame) :
    (∀ q, (handle_call_tool ev df (.query q)).written = none) ∧
    (handle_call_tool ev df .list_columns).written = none ∧
    ∀ call, (handle_call_tool ev df call).written = none ∨
      (∃ i d, call = .update_item i d) ∨ (∃ i o, call = .delete_item i o) := by
  refine ⟨fun q => ?_, rfl, fun call => ?_⟩
  · cases hq : ev df q <;> simp [handle_call_tool, hq]
  · cases call with
    | query q => exact Or.inl (by cases hq : ev df q <;> simp [handle_call_tool, hq])
    | update_item i d => exact Or.inr (Or.inl ⟨i, d, rfl⟩)
    | delete_item i o => exact Or.inr (Or.inr ⟨i, o, rfl⟩)
    | list_columns => exact Or.inl rfl

end ExcelMcp
